import Mathlib

/-!
Shallow embedding of the MUSIC time-advance engine (`advance.cpp`,
`transport_coeffs.h`) and proofs about it.

Conventions of the embedding:
* `double` values are modelled over a `LinearOrderedField` (instantiated at `ℚ`
  for executable witnesses, at `ℝ` where the source uses `sqrt`/`exp`).
* IEEE special values are modelled by the `EF` wrapper (`nan`, `pinf`, `ninf`,
  `fin x`) exactly where the claims are about NaN behaviour; comparisons with
  `nan` are false, as in IEEE.
* In plain-field code paths, division by zero yields `0` (Lean convention).
  In every guarded C++ branch modelled here this produces the same control
  flow as the IEEE `inf`/`nan` results would (the produced candidate factors
  are skipped by the `alp > 0 && alp < minAlp` / `alp < 0` tests either way).
* `exit(...)` is modelled as `Except.error ()`; file/console diagnostics are
  modelled as explicit list outputs.
-/

namespace Music

/-- `Cell_small` of the source: primitive variables (`epsilon`, `rhob`, the
four-velocity `u`), the 14 stored `Wmunu` components (10 shear + 4 diffusion),
the bulk pressure `pi_b` and the 3 cached eigenvalues `Lambdas`. -/
structure Cell (α : Type) where
  epsilon : α
  rhob : α
  u : Fin 4 → α
  Wmunu : Fin 14 → α
  pi_b : α
  Lambdas : Fin 3 → α

/-- `ReconstCell` of the source: primitives reconstructed at a cell face. -/
structure ReconstCell (α : Type) where
  e : α
  rhob : α
  u : Fin 4 → α

/-- The external collaborators the advance module reads: the equation-of-state
oracle (`eos.get_cs2`, `eos.get_pressure`, `eos.get_dpde`) and the two runtime
relaxation-time factors of `TransportCoeffs`. -/
structure HEnv (α : Type) where
  get_cs2 : α → α → α
  get_pressure : α → α → α
  get_dpde : α → α → α
  shear_relax_time_factor : α
  bulk_relax_time_factor : α

section TransportConstants

variable (α : Type) [LinearOrderedField α]

/-- `TransportCoeffs::get_tau_pipi_coeff` (= 10/7). -/
def get_tau_pipi_coeff : α := 10 / 7

/-- `TransportCoeffs::get_delta_pipi_coeff` (= 4/3). -/
def get_delta_pipi_coeff : α := 4 / 3

/-- `TransportCoeffs::get_lambda_piPi_coeff` (= 6/5). -/
def get_lambda_piPi_coeff : α := 6 / 5

/-- `TransportCoeffs::get_lambda_Pipi_coeff` (= 8/5). -/
def get_lambda_Pipi_coeff : α := 8 / 5

/-- `TransportCoeffs::get_delta_PiPi_coeff` (= 2/3). -/
def get_delta_PiPi_coeff : α := 2 / 3

end TransportConstants

section IdealStep

variable {α : Type} [LinearOrderedField α]

/-- `Advance::get_TJb(const Cell_small&, mu, nu)`: the ideal stress tensor /
charge current component, built from the cell's primitives and the
equation-of-state pressure. -/
def get_TJb (P : α → α → α) (c : Cell α) (mu : Fin 5) (nu : Fin 4) : α :=
  if _h : mu.val = 4 then c.rhob * c.u nu
  else
    let e := c.epsilon
    let u_nu := c.u nu
    let gfac : α := if mu.val = nu.val then (if mu.val = 0 then -1 else 1) else 0
    let u_mu : α := if mu.val = nu.val then u_nu else c.u ⟨mu.val, by omega⟩
    (e + P e c.rhob) * u_mu * u_nu + P e c.rhob * gfac

/-- The per-component combine step of `Advance::FirstRKStepT`
(`advance.cpp` lines 150-170): starting from the flux-updated `qi[alpha]`,
subtract the dissipative-source divergence, add the external source, add
`rk_flag` times the previous step's tau-weighted conserved component, and
multiply by `1/(1+rk_flag)`. -/
def FirstRKStepT_combine (P : α → α → α) (rk_flag : ℕ) (qi dwmn qi_source : Fin 5 → α)
    (prev : Cell α) (tau delta_tau : α) : Fin 5 → α :=
  fun a =>
    (qi a - dwmn a * delta_tau + qi_source a * delta_tau
      + (rk_flag : α) * get_TJb P prev a 0 * tau) * (1 / (1 + (rk_flag : α)))

/-- The per-quantity dissipative update of `Advance::FirstRKStepW`.  The three
enabled branches (shear, lines 212-223; bulk, lines 235-244; diffusion, lines
256-268) all perform exactly this arithmetic on the evolved quantity `qcur`
(current value), `qprev` (previous-step value), the `u⁰` factors of the
current/previous/future cells, the spatial flux divergence `w_rhs`, and the
source `src`:
`tempf = (1-rk)*(qcur*u0c) + rk*(qprev*u0p); tempf += src*dt; tempf += w_rhs;`
`tempf += rk*(qcur*u0c); tempf *= 1/(1+rk);` result `= tempf/u0f`. -/
def FirstRKStepW_update (rk_flag : ℕ) (qcur qprev u0c u0p u0f w_rhs src dt : α) : α :=
  ((1 - (rk_flag : α)) * (qcur * u0c) + (rk_flag : α) * (qprev * u0p)
      + src * dt + w_rhs + (rk_flag : α) * (qcur * u0c)) * (1 / (1 + (rk_flag : α))) / u0f

/-- The formula the specification text states for the dissipative update:
`[(1-w)*(current*u0_current) + w*(previous*u0_previous) + flux + source*dt]`
divided by `(1+w)`, then divided by the future `u⁰`.  Written from the spec's
words, for comparison with `FirstRKStepW_update` (which embeds the source). -/
def FirstRKStepW_specFormula (w : ℕ) (qcur qprev u0c u0p u0f w_rhs src dt : α) : α :=
  ((1 - (w : α)) * (qcur * u0c) + (w : α) * (qprev * u0p)
      + w_rhs + src * dt) * (1 / (1 + (w : α))) / u0f

end IdealStep

/-- An IEEE-like extended value: `nan`, the two infinities, or a finite value.
Used to model the `double` computations whose NaN behaviour the claims are
about. -/
inductive EF (α : Type) where
  | nan : EF α
  | pinf : EF α
  | ninf : EF α
  | fin : α → EF α
deriving DecidableEq

namespace EF

variable {α : Type} [LinearOrderedField α]

/-- IEEE multiplication on extended values (`inf * 0 = nan`, `nan` absorbs). -/
def mul : EF α → EF α → EF α
  | nan, _ => nan
  | _, nan => nan
  | pinf, pinf => pinf
  | pinf, ninf => ninf
  | ninf, pinf => ninf
  | ninf, ninf => pinf
  | pinf, fin y => if y = 0 then nan else if 0 < y then pinf else ninf
  | ninf, fin y => if y = 0 then nan else if 0 < y then ninf else pinf
  | fin x, pinf => if x = 0 then nan else if 0 < x then pinf else ninf
  | fin x, ninf => if x = 0 then nan else if 0 < x then ninf else pinf
  | fin x, fin y => fin (x * y)

/-- IEEE division on extended values (`x/0` is a signed infinity for `x ≠ 0`
and `nan` for `x = 0`, `inf/inf = nan`, finite/infinite = 0; the sign of a
zero is not modelled, zeros count as `+0`). -/
def div : EF α → EF α → EF α
  | nan, _ => nan
  | _, nan => nan
  | pinf, pinf => nan
  | pinf, ninf => nan
  | ninf, pinf => nan
  | ninf, ninf => nan
  | pinf, fin y => if 0 ≤ y then pinf else ninf
  | ninf, fin y => if 0 ≤ y then ninf else pinf
  | fin _, pinf => fin 0
  | fin _, ninf => fin 0
  | fin x, fin y =>
      if y = 0 then (if x = 0 then nan else if 0 < x then pinf else ninf)
      else fin (x / y)

/-- `std::isnan`. -/
def isNan : EF α → Bool
  | nan => true
  | _ => false

/-- IEEE `<` on extended values: any comparison involving `nan` is false. -/
def ltB : EF α → EF α → Bool
  | nan, _ => false
  | _, nan => false
  | pinf, _ => false
  | ninf, ninf => false
  | ninf, _ => true
  | fin _, pinf => true
  | fin _, ninf => false
  | fin x, fin y => decide (x < y)

/-- Extract the finite part (the reachable uses below only apply it to finite
values; the default on specials is 0). -/
def toReal : EF α → α
  | fin x => x
  | _ => 0

end EF

/-- `Real.sqrt` lifted to extended values: `sqrt` of a negative number or of
`-inf` is `nan`. -/
noncomputable def EF.sqrtR : EF ℝ → EF ℝ
  | EF.nan => EF.nan
  | EF.pinf => EF.pinf
  | EF.ninf => EF.nan
  | EF.fin x => if x < 0 then EF.nan else EF.fin (Real.sqrt x)

section SourceStage

variable {α : Type} [LinearOrderedField α]

/-- The external-source stage of `Advance::FirstRKStepT` (`advance.cpp` lines
121-143): with hydro sources enabled, `qi_source[ii] = tau_rk * j_mu[ii]` for
the four energy-momentum components, each checked with `isnan` (a NaN is
fatal, modelled as `Except.error ()`); with `turn_on_rhob == 1` the net-baryon
component `qi_source[4] = tau_rk * rhob_source` is set afterwards, without any
NaN check. -/
def FirstRKStepT_source (flag_add_hydro_source turn_on_rhob : Bool) (tau_rk : α)
    (j_mu : Fin 4 → EF α) (rhob_source : EF α) : Except Unit (Fin 5 → EF α) :=
  if flag_add_hydro_source then
    let q : Fin 4 → EF α := fun i => EF.mul (EF.fin tau_rk) (j_mu i)
    if (q 0).isNan || (q 1).isNan || (q 2).isNan || (q 3).isNan then
      Except.error ()
    else
      Except.ok (fun a =>
        if h : a.val < 4 then q ⟨a.val, h⟩
        else if turn_on_rhob then EF.mul (EF.fin tau_rk) rhob_source
        else EF.fin 0)
  else Except.ok (fun _ => EF.fin 0)

/-- Component accessor on the result of the source stage (0 on the fatal
branch). -/
def sourceComp (r : Except Unit (Fin 5 → EF α)) (i : Fin 5) : EF α :=
  match r with
  | Except.ok v => v i
  | Except.error _ => EF.fin 0

/-- Whether the source stage aborted the process. -/
def sourceFatal (r : Except Unit (Fin 5 → EF α)) : Bool :=
  match r with
  | Except.ok _ => false
  | Except.error _ => true

end SourceStage

section Causality

variable {α : Type} [LinearOrderedField α]

/-- One step of the candidate-minimisation loop shared by
`Advance::nCausalityConstraints` and `Advance::sCausalityConstraints`:
`if (alp > 0 && alp < minAlp){minAlp = alp;} else if (alp < 0){minAlp = 0;}`. -/
def stepAlp (m a : α) : α :=
  if 0 < a ∧ a < m then a else if a < 0 then 0 else m

/-- `eps + P` appearing in every normalised dissipative quantity. -/
def nDenom (E : HEnv α) (c : Cell α) : α :=
  c.epsilon + E.get_pressure c.epsilon c.rhob

/-- `transportPart_n13 = 2/shear_relax_time_factor`. -/
def nTransport13 (E : HEnv α) : α :=
  2 * (1 / E.shear_relax_time_factor)

/-- `viscousPart1_n13 = lambda_piPi`. -/
def nViscous1_13 : α := get_lambda_piPi_coeff α

/-- `viscousPart2_n13 = -tau_pipi/2`. -/
def nViscous2_13 : α := -(1 / 2) * get_tau_pipi_coeff α

/-- `transportPart_n56`. -/
def nTransport56 (E : HEnv α) (c : Cell α) : α :=
  let cs2 := E.get_cs2 c.epsilon c.rhob
  cs2 + 4 / 3 * (1 / E.shear_relax_time_factor)
    + 1 / E.bulk_relax_time_factor * (1 / 3 - cs2) * (1 / 3 - cs2)

/-- `viscousPart1_n56`. -/
def nViscous1_56 (E : HEnv α) (c : Cell α) : α :=
  2 / 3 * get_lambda_piPi_coeff α + get_delta_PiPi_coeff α + E.get_cs2 c.epsilon c.rhob

/-- `viscousPart2_n56`. -/
def nViscous2_56 (E : HEnv α) (c : Cell α) : α :=
  let cs2 := E.get_cs2 c.epsilon c.rhob
  get_delta_pipi_coeff α + 1 / 3 * get_tau_pipi_coeff α
    + get_lambda_Pipi_coeff α * (1 / 3 - cs2) + cs2

/-- The state-dependent (dissipative) part of condition `n1`. -/
def nV1 (E : HEnv α) (c : Cell α) : α :=
  nViscous1_13 * c.pi_b / nDenom E c + nViscous2_13 * |c.Lambdas 0| / nDenom E c

/-- The state-dependent part of condition `n3`. -/
def nV3 (E : HEnv α) (c : Cell α) : α :=
  nViscous1_13 * c.pi_b / nDenom E c + nViscous2_13 * c.Lambdas 2 / nDenom E c

/-- The state-dependent part of condition `n5`. -/
def nV5 (E : HEnv α) (c : Cell α) : α :=
  nViscous1_56 E c * c.pi_b / nDenom E c + nViscous2_56 E c * c.Lambdas 0 / nDenom E c

/-- The state-dependent part of condition `n6`. -/
def nV6 (E : HEnv α) (c : Cell α) : α :=
  (1 - nViscous1_56 E c) * c.pi_b / nDenom E c
    + (1 - nViscous2_56 E c) * c.Lambdas 2 / nDenom E c

/-- Necessary causality condition `n1` (`advance.cpp` line 385). -/
def nCond1 (E : HEnv α) (c : Cell α) : α := nTransport13 E + nV1 E c

/-- Necessary causality condition `n3` (line 386). -/
def nCond3 (E : HEnv α) (c : Cell α) : α := nTransport13 E + nV3 E c

/-- Necessary causality condition `n5` (line 387). -/
def nCond5 (E : HEnv α) (c : Cell α) : α := nTransport56 E c + nV5 E c

/-- Necessary causality condition `n6` (line 388). -/
def nCond6 (E : HEnv α) (c : Cell α) : α := (1 - nTransport56 E c) + nV6 E c

/-- Candidate damping factor from `n1` (`alp = 1` when the condition holds). -/
def nCand1 (E : HEnv α) (c : Cell α) : α :=
  if nCond1 E c < 0 then -nTransport13 E / nV1 E c else 1

/-- Candidate damping factor from `n3`. -/
def nCand3 (E : HEnv α) (c : Cell α) : α :=
  if nCond3 E c < 0 then -nTransport13 E / nV3 E c else 1

/-- Candidate damping factor from `n5`. -/
def nCand5 (E : HEnv α) (c : Cell α) : α :=
  if nCond5 E c < 0 then -nTransport56 E c / nV5 E c else 1

/-- Candidate damping factor from `n6`. -/
def nCand6 (E : HEnv α) (c : Cell α) : α :=
  if nCond6 E c < 0 then -(1 - nTransport56 E c) / nV6 E c else 1

/-- The four candidates in loop order. -/
def nCands (E : HEnv α) (c : Cell α) : List α :=
  [nCand1 E c, nCand3 E c, nCand5 E c, nCand6 E c]

/-- The damping factor `minAlp` computed by the candidate loop of
`nCausalityConstraints` (lines 391-416). -/
def nMinAlp (E : HEnv α) (c : Cell α) : α :=
  (nCands E c).foldl stepAlp 1

/-- Uniform rescaling of the dissipative state (`pi_b`, all 14 `Wmunu`
components, the 3 cached eigenvalues) by a factor; primitives untouched. -/
def scaleDiss (k : α) (c : Cell α) : Cell α :=
  { c with pi_b := c.pi_b * k,
           Wmunu := fun j => c.Wmunu j * k,
           Lambdas := fun j => c.Lambdas j * k }

/-- `Advance::nCausalityConstraints` (lines 372-435): rescale the dissipative
state by `minAlp`, and when `eps > 0.01` append one record
(factor, energy density, proper time) to the reduction-factor log. -/
def nCausalityConstraints (E : HEnv α) (c : Cell α) (tau : α) :
    Cell α × List (α × α × α) :=
  (scaleDiss (nMinAlp E c) c,
   if 1 / 100 < c.epsilon then [(nMinAlp E c, c.epsilon, tau)] else [])

/-- `L1 = Lambdas[0]/(eps+P)`. -/
def sL1 (E : HEnv α) (c : Cell α) : α := c.Lambdas 0 / nDenom E c

/-- `L2 = Lambdas[1]/(eps+P)`. -/
def sL2 (E : HEnv α) (c : Cell α) : α := c.Lambdas 1 / nDenom E c

/-- `L3 = Lambdas[2]/(eps+P)`. -/
def sL3 (E : HEnv α) (c : Cell α) : α := c.Lambdas 2 / nDenom E c

/-- `Pi = pi_b/(eps+P)`. -/
def sPi (E : HEnv α) (c : Cell α) : α := c.pi_b / nDenom E c

/-- `s_relax = 1/shear_relax_time_factor`. -/
def sRelax (E : HEnv α) : α := 1 / E.shear_relax_time_factor

/-- `b_relax = (1/bulk_relax_time_factor)*(1/3 - cs2)^2`. -/
def bRelax (E : HEnv α) (c : Cell α) : α :=
  let cs2 := E.get_cs2 c.epsilon c.rhob
  1 / E.bulk_relax_time_factor * (1 / 3 - cs2) * (1 / 3 - cs2)

/-- `Advance::Suff5` (lines 456-474), the first nonlinear sufficiency
function. -/
def Suff5 (E : HEnv α) (c : Cell α) (beta : α) : α :=
  let cs2 := E.get_cs2 c.epsilon c.rhob
  let L1 := sL1 E c
  let L3 := sL3 E c
  let Pi := sPi E c
  let s_relax := sRelax E
  let b_relax := bRelax E c
  let lam_piPi := get_lambda_piPi_coeff α
  let tau_pipi := get_tau_pipi_coeff α
  let del_PiPi := get_delta_PiPi_coeff α
  let del_pipi := get_delta_pipi_coeff α
  let lam_Pipi := get_lambda_Pipi_coeff α
  1 - cs2 - 4 / 3 * s_relax - b_relax
    - beta * ((cs2 - 1 + 2 / 3 * lam_piPi + del_PiPi) * Pi
        + (del_pipi + 1 / 3 * tau_pipi + lam_Pipi + cs2) * L3 + |L1|)
    - beta * beta * (del_pipi - 1 / 12 * tau_pipi)
        * (lam_Pipi + cs2 - 1 / 12 * tau_pipi) * (L3 + |L1|) * (L3 + |L1|)
        / (1 - s_relax + beta * ((1 - 1 / 2 * lam_piPi) * Pi - |L1| - 1 / 2 * tau_pipi * L3))

/-- `Advance::Suff7` (lines 475-493). -/
def Suff7 (E : HEnv α) (c : Cell α) (beta : α) : α :=
  let cs2 := E.get_cs2 c.epsilon c.rhob
  let L1 := sL1 E c
  let L3 := sL3 E c
  let Pi := sPi E c
  let s_relax := sRelax E
  let lam_piPi := get_lambda_piPi_coeff α
  let tau_pipi := get_tau_pipi_coeff α
  let del_pipi := get_delta_pipi_coeff α
  let lam_Pipi := get_lambda_Pipi_coeff α
  (s_relax + beta * (1 / 2 * lam_piPi * Pi - 1 / 2 * tau_pipi * |L1|))
      * (s_relax + beta * (1 / 2 * lam_piPi * Pi - 1 / 2 * tau_pipi * |L1|))
    - beta * beta * (del_pipi - 1 / 12 * tau_pipi)
        * (lam_Pipi + cs2 - 1 / 12 * tau_pipi) * (L3 + |L1|) * (L3 + |L1|)

/-- `Advance::Suff8` (lines 494-513). -/
def Suff8 (E : HEnv α) (c : Cell α) (beta : α) : α :=
  let cs2 := E.get_cs2 c.epsilon c.rhob
  let L1 := sL1 E c
  let L2 := sL2 E c
  let L3 := sL3 E c
  let Pi := sPi E c
  let s_relax := sRelax E
  let b_relax := bRelax E c
  let lam_piPi := get_lambda_piPi_coeff α
  let tau_pipi := get_tau_pipi_coeff α
  let del_PiPi := get_delta_PiPi_coeff α
  let del_pipi := get_delta_pipi_coeff α
  let lam_Pipi := get_lambda_Pipi_coeff α
  4 / 3 * s_relax + b_relax + cs2
    + beta * ((2 / 3 * lam_piPi + del_PiPi + cs2) * Pi
        - (del_pipi + 1 / 3 * tau_pipi - lam_Pipi + cs2) * |L1|)
    - (1 + beta * (Pi + L2)) * (1 + beta * (Pi + L3)) / 3
        / (1 + beta * (Pi - |L1|)) / (1 + beta * (Pi - |L1|))
        * (1 + 2 * s_relax + beta * ((1 + lam_piPi) * Pi - |Pi| + tau_pipi * L3))

/-- `Advance::BinarySearch` (lines 437-454).  The C++ loop
`while (right - left > 1e-4)` always terminates because the bracket halves
each iteration; it is given here with a fuel parameter large enough that the
fuel never runs out for the brackets `[0, beta]` with `beta ≤ 1` used by the
callers (at most 14 iterations are possible there). -/
def BinarySearch : ℕ → (α → α) → α → α → α → Bool × α
  | 0, _, _, _, result => (false, result)
  | fuel + 1, f, left, right, result =>
    if right - left > 1 / 10000 then
      if right < left then (false, result)
      else if f right * f left > 0 then (false, result)
      else
        let m := (left + right) / 2
        if f m < 0 then BinarySearch fuel f left m m
        else BinarySearch fuel f m right m
    else (true, result)

/-- Sufficient causality condition `s1` (line 543). -/
def sCond1 (E : HEnv α) (c : Cell α) : α :=
  1 - sRelax E - sL1 E c + (1 - 1 / 2 * get_lambda_piPi_coeff α) * sPi E c
    - 1 / 2 * get_tau_pipi_coeff α * sL3 E c

/-- Sufficient causality condition `s2` (line 544). -/
def sCond2 (E : HEnv α) (c : Cell α) : α :=
  2 * sRelax E + get_lambda_piPi_coeff α * sPi E c
    - get_tau_pipi_coeff α * |sL1 E c|

/-- Sufficient causality condition `s6` (line 545). -/
def sCond6 (E : HEnv α) (c : Cell α) : α :=
  let cs2 := E.get_cs2 c.epsilon c.rhob
  1 / 3 * sRelax E + bRelax E c + cs2
    + (1 / 6 * get_lambda_piPi_coeff α + get_delta_PiPi_coeff α + cs2) * sPi E c
    + (1 / 6 * get_tau_pipi_coeff α - get_delta_pipi_coeff α
        + get_lambda_Pipi_coeff α - cs2) * |sL1 E c|

/-- Candidate damping factor from `s1` (line 555). -/
def sCand1 (E : HEnv α) (c : Cell α) : α :=
  if sCond1 E c < 0 then
    (sRelax E - 1) / (-|sL1 E c| + (1 - 1 / 2 * get_lambda_piPi_coeff α) * sPi E c
      - 1 / 2 * get_tau_pipi_coeff α * sL3 E c)
  else 1

/-- Candidate damping factor from `s2` (line 558). -/
def sCand2 (E : HEnv α) (c : Cell α) : α :=
  if sCond2 E c < 0 then
    (-2 * sRelax E) / (get_lambda_piPi_coeff α * sPi E c
      - get_tau_pipi_coeff α * |sL1 E c|)
  else 1

/-- Candidate damping factor from `s6` (line 561). -/
def sCand6 (E : HEnv α) (c : Cell α) : α :=
  let cs2 := E.get_cs2 c.epsilon c.rhob
  if sCond6 E c < 0 then
    -(1 / 3 * sRelax E + bRelax E c + cs2)
      / ((1 / 6 * get_lambda_piPi_coeff α + get_delta_PiPi_coeff α + cs2) * sPi E c
        + (1 / 6 * get_tau_pipi_coeff α - get_delta_pipi_coeff α
            + get_lambda_Pipi_coeff α - cs2) * |sL1 E c|)
  else 1

/-- The closed-form stage of `sCausalityConstraints`: `minBeta` after the
candidate loop over `s1, s2, s6` (lines 547-570). -/
def sBeta0 (E : HEnv α) (c : Cell α) : α :=
  [sCand1 E c, sCand2 E c, sCand6 E c].foldl stepAlp 1

/-- Diagnostic messages emitted by the three bisection-failure branches. -/
inductive SuffMsg where
  | suff5 : SuffMsg
  | suff7 : SuffMsg
  | suff8 : SuffMsg
deriving DecidableEq

/-- The `Suff5` adjustment block of `sCausalityConstraints` (lines 571-582):
if `Suff5` is negative at the current factor, bisect on `[0, minBeta]`; on
bisection failure fall back to 0 when `cs2 < 0.15`, otherwise report a
diagnostic and keep the factor. -/
def sBeta5 (E : HEnv α) (c : Cell α) : α × List SuffMsg :=
  let beta := sBeta0 E c
  if Suff5 E c beta < 0 then
    let r := BinarySearch 64 (Suff5 E c) 0 beta 0
    if r.1 then (r.2, [])
    else if E.get_cs2 c.epsilon c.rhob < 3 / 20 then (0, [])
    else (beta, [SuffMsg.suff5])
  else (beta, [])

/-- The `Suff7` adjustment block (lines 583-592): on bisection failure the
factor is left unmodified and a diagnostic is reported. -/
def sBeta7 (E : HEnv α) (c : Cell α) : α × List SuffMsg :=
  let beta := (sBeta5 E c).1
  if Suff7 E c beta < 0 then
    let r := BinarySearch 64 (Suff7 E c) 0 beta 0
    if r.1 then (r.2, [])
    else (beta, [SuffMsg.suff7])
  else (beta, [])

/-- The `Suff8` adjustment block (lines 593-602). -/
def sBeta8 (E : HEnv α) (c : Cell α) : α × List SuffMsg :=
  let beta := (sBeta7 E c).1
  if Suff8 E c beta < 0 then
    let r := BinarySearch 64 (Suff8 E c) 0 beta 0
    if r.1 then (r.2, [])
    else (beta, [SuffMsg.suff8])
  else (beta, [])

/-- `Advance::sCausalityConstraints` (lines 527-620): compute the damping
factor through the closed-form candidates and the three sufficiency
adjustments, rescale the dissipative state by it, log a record when
`eps > 0.01`, and report any bisection-failure diagnostics. -/
def sCausalityConstraints (E : HEnv α) (c : Cell α) (tau : α) :
    Cell α × List (α × α × α) × List SuffMsg :=
  (scaleDiss (sBeta8 E c).1 c,
   (if 1 / 100 < c.epsilon then [((sBeta8 E c).1, c.epsilon, tau)] else []),
   (sBeta5 E c).2 ++ (sBeta7 E c).2 ++ (sBeta8 E c).2)

end Causality

section QuestRevertDef

/-- The logistic gating factor of `Advance::QuestRevert` (lines 641-644),
with `eps_scale = 0.1` and `xi = 0.05`. -/
noncomputable def questFactor (strength e_local : ℝ) : ℝ :=
  10 * strength * (1 / (Real.exp (-(e_local - 1 / 10) / (5 / 100)) + 1)
    - 1 / (Real.exp ((1 / 10) / (5 / 100)) + 1))

/-- `pisize` (lines 647-660): the indefinite quadratic magnitude of the 10
stored shear components. -/
noncomputable def pisize (c : Cell ℝ) : ℝ :=
  let pi_00 := c.Wmunu 0
  let pi_01 := c.Wmunu 1
  let pi_02 := c.Wmunu 2
  let pi_03 := c.Wmunu 3
  let pi_11 := c.Wmunu 4
  let pi_12 := c.Wmunu 5
  let pi_13 := c.Wmunu 6
  let pi_22 := c.Wmunu 7
  let pi_23 := c.Wmunu 8
  let pi_33 := c.Wmunu 9
  pi_00 * pi_00 + pi_11 * pi_11 + pi_22 * pi_22 + pi_33 * pi_33
    - 2 * (pi_01 * pi_01 + pi_02 * pi_02 + pi_03 * pi_03)
    + 2 * (pi_12 * pi_12 + pi_13 * pi_13 + pi_23 * pi_23)

/-- `eq_size = e^2 + 3 p^2` (line 666). -/
noncomputable def eqSize (P : ℝ → ℝ → ℝ) (c : Cell ℝ) : ℝ :=
  let p_local := P c.epsilon c.rhob
  c.epsilon * c.epsilon + 3 * p_local * p_local

/-- `rho_shear = sqrt(pisize/eq_size)/factor` (line 669), as the `double`
computation: NaN when `pisize/eq_size` is negative (or 0/0), infinite when
the quotient overflows a zero denominator. -/
noncomputable def rhoShear (P : ℝ → ℝ → ℝ) (strength : ℝ) (c : Cell ℝ) : EF ℝ :=
  EF.div (EF.sqrtR (EF.div (EF.fin (pisize c)) (EF.fin (eqSize P c))))
    (EF.fin (questFactor strength c.epsilon))

/-- `rho_bulk = sqrt(3 pi_b^2/eq_size)/factor` (lines 663, 670). -/
noncomputable def rhoBulk (P : ℝ → ℝ → ℝ) (strength : ℝ) (c : Cell ℝ) : EF ℝ :=
  EF.div (EF.sqrtR (EF.div (EF.fin (3 * c.pi_b * c.pi_b)) (EF.fin (eqSize P c))))
    (EF.fin (questFactor strength c.epsilon))

/-- `Advance::QuestRevert` (lines 633-705): a NaN shear ratio zeroes the 10
shear components; a shear ratio above the ceiling 0.1 rescales them by
`0.1/ratio`; a bulk ratio above 0.1 rescales `pi_b` by `0.1/ratio` (a NaN
bulk ratio fails the `>` comparison and leaves `pi_b` unchanged).  The
console warnings are omitted; they carry no state. -/
noncomputable def QuestRevert (P : ℝ → ℝ → ℝ) (strength : ℝ) (c : Cell ℝ) : Cell ℝ :=
  let rho_shear := rhoShear P strength c
  let rho_bulk := rhoBulk P strength c
  let W1 : Fin 14 → ℝ :=
    if rho_shear.isNan then
      fun mu => if mu.val < 10 then 0 else c.Wmunu mu
    else if EF.ltB (EF.fin (1 / 10)) rho_shear then
      fun mu => if mu.val < 10 then
        EF.toReal (EF.div (EF.fin (1 / 10)) rho_shear) * c.Wmunu mu
      else c.Wmunu mu
    else c.Wmunu
  let pb1 : ℝ :=
    if EF.ltB (EF.fin (1 / 10)) rho_bulk then
      EF.toReal (EF.div (EF.fin (1 / 10)) rho_bulk) * c.pi_b
    else c.pi_b
  { c with Wmunu := W1, pi_b := pb1 }

end QuestRevertDef

section MaxSpeedDef

/-- `ut2mux2 = utau^2 - ux^2` with `ux = |u[direc]|` (lines 873-876). -/
noncomputable def msUt2mux2 (g : ReconstCell ℝ) (direc : Fin 4) : ℝ :=
  g.u 0 * g.u 0 - |g.u direc| * |g.u direc|

/-- `num_temp_sqrt = (ut2mux2 - (ut2mux2 - 1) vs2) vs2` (line 882). -/
noncomputable def msNumTempSqrt (E : HEnv ℝ) (g : ReconstCell ℝ) (direc : Fin 4) : ℝ :=
  let vs2 := E.get_cs2 g.e g.rhob
  (msUt2mux2 g direc - (msUt2mux2 g direc - 1) * vs2) * vs2

/-- The numerator of `Advance::MaxSpeed` (lines 883-908): the primary branch
when the discriminant is nonnegative, otherwise the alternate closed form
(used by the code only when `dpde < 0.001`; the selector is total here, the
fatal gate sits in `MaxSpeedPre`). -/
noncomputable def msNum (E : HEnv ℝ) (g : ReconstCell ℝ) (direc : Fin 4) : ℝ :=
  let utau := g.u 0
  let ux := |g.u direc|
  let ut2mux2 := msUt2mux2 g direc
  let vs2 := E.get_cs2 g.e g.rhob
  if 0 ≤ msNumTempSqrt E g direc then
    utau * ux * (1 - vs2) + Real.sqrt (msNumTempSqrt E g direc)
  else
    let dpde := E.get_dpde g.e g.rhob
    let h := E.get_pressure g.e g.rhob + g.e
    Real.sqrt (-(h * dpde * h * (dpde * (-1 + ut2mux2) - ut2mux2)))
      - h * (-1 + dpde) * utau * ux

/-- `den = utau^2 (1 - vs2) + vs2` (line 909). -/
noncomputable def msDen (E : HEnv ℝ) (g : ReconstCell ℝ) : ℝ :=
  let vs2 := E.get_cs2 g.e g.rhob
  g.u 0 * g.u 0 * (1 - vs2) + vs2

/-- The validation chain of `MaxSpeed` on the computed speed `f` (lines
912-934): a negative speed is fatal; a speed below `ux/utau` with nonzero
numerator is snapped to `ux/utau` when within `1e-4`, fatal otherwise (with a
zero numerator the branch body is skipped and `f` is returned as is); a speed
above 1 is fatal (the clamp `f = 1` on that path is dead, the process
exits). -/
noncomputable def msValidate (utau ux num f : ℝ) : Except Unit ℝ :=
  if f < 0 then Except.error ()
  else if f < ux / utau then
    if num ≠ 0 then
      if |f - ux / utau| < 1 / 10000 then Except.ok (ux / utau)
      else Except.error ()
    else Except.ok f
  else if 1 < f then Except.error ()
  else Except.ok f

/-- `Advance::MaxSpeed` up to (excluding) the final per-direction geometric
factor `g[direc-1]`; `smallEps` is `Util::small_eps` (not part of the shown
sources, kept as a parameter).  A negative discriminant with
`dpde ≥ 0.001` is fatal (lines 893-907). -/
noncomputable def MaxSpeedPre (E : HEnv ℝ) (smallEps : ℝ) (g : ReconstCell ℝ)
    (direc : Fin 4) : Except Unit ℝ :=
  if 0 ≤ msNumTempSqrt E g direc ∨ E.get_dpde g.e g.rhob < 1 / 1000 then
    msValidate (g.u 0) |g.u direc| (msNum E g direc)
      (msNum E g direc / max (msDen E g) smallEps)
  else Except.error ()

/-- `Advance::MaxSpeed` (lines 869-937): the validated speed times the
geometric factor `g[direc-1]` from `g[] = {1, 1, 1/tau}`. -/
noncomputable def MaxSpeed (E : HEnv ℝ) (smallEps : ℝ) (g : ReconstCell ℝ)
    (direc : Fin 4) (tau : ℝ) : Except Unit ℝ :=
  Except.map (fun f => f * (if direc.val = 3 then 1 / tau else 1))
    (MaxSpeedPre E smallEps g direc)

end MaxSpeedDef

/-! ## Concrete environments and cells used by individual witnesses -/

section ConcreteInstances

/-- A constant-coefficient equation of state / transport environment over `ℚ`
(`cs2 = 0`, `P = 0`, unit relaxation factors). -/
def envC3 : HEnv ℚ :=
  { get_cs2 := fun _ _ => 0, get_pressure := fun _ _ => 0, get_dpde := fun _ _ => 0,
    shear_relax_time_factor := 1, bulk_relax_time_factor := 1 }

/-- A cell with a large negative bulk pressure and a negative smallest
eigenvalue, violating `n1`, `n3` and `n5` but not `n6`. -/
def cellC3 : Cell ℚ :=
  { epsilon := 1, rhob := 0, u := fun _ => 0, Wmunu := fun _ => 0,
    pi_b := -10, Lambdas := fun j => if j.val = 0 then -7 else 0 }

/-- Same environment as `envC3`, kept separate for the C9 theorems. -/
def envC9 : HEnv ℚ :=
  { get_cs2 := fun _ _ => 0, get_pressure := fun _ _ => 0, get_dpde := fun _ _ => 0,
    shear_relax_time_factor := 1, bulk_relax_time_factor := 1 }

/-- Same dissipative state as `cellC3`, kept separate for the C9 theorems. -/
def cellC9 : Cell ℚ :=
  { epsilon := 1, rhob := 0, u := fun _ => 0, Wmunu := fun _ => 0,
    pi_b := -10, Lambdas := fun j => if j.val = 0 then -7 else 0 }

/-- Environment over `ℚ` with `cs2 = 0 < 0.15`, `shear_relax_time_factor = 2`
and `bulk_relax_time_factor = 1/9`, making `Suff5` negative on the whole
bracket at the zero dissipative state. -/
def envC6 : HEnv ℚ :=
  { get_cs2 := fun _ _ => 0, get_pressure := fun _ _ => 0, get_dpde := fun _ _ => 0,
    shear_relax_time_factor := 2, bulk_relax_time_factor := 1 / 9 }

/-- A zero dissipative state at unit energy density. -/
def cellC6 : Cell ℚ :=
  { epsilon := 1, rhob := 0, u := fun _ => 0, Wmunu := fun _ => 0,
    pi_b := 0, Lambdas := fun _ => 0 }

/-- A real cell whose only nonzero shear component is `Wmunu[1] = pi^{01}`,
making `pisize = -2 < 0` and hence the shear ratio NaN. -/
def cellC4 : Cell ℝ :=
  { epsilon := 1, rhob := 0, u := fun _ => 0,
    Wmunu := fun j => if j.val = 1 then 1 else 0, pi_b := 0, Lambdas := fun _ => 0 }

/-- A real cell with zero energy, pressure and bulk pressure: `bulksize/eq_size`
is `0/0`, so the bulk ratio is NaN. -/
def cellC10 : Cell ℝ :=
  { epsilon := 0, rhob := 0, u := fun _ => 0, Wmunu := fun _ => 0,
    pi_b := 0, Lambdas := fun _ => 0 }

/-- A pathological but admissible oracle (`cs2 = -1`, `P = -e`, `dpde = 0`)
driving `MaxSpeed` into its alternate branch with numerator zero. -/
def envC5 : HEnv ℝ :=
  { get_cs2 := fun _ _ => -1, get_pressure := fun e _ => -e, get_dpde := fun _ _ => 0,
    shear_relax_time_factor := 1, bulk_relax_time_factor := 1 }

/-- A face state with `utau = 2`, `ux = 1`. -/
def gridC5 : ReconstCell ℝ :=
  { e := 1, rhob := 0, u := ![2, 1, 0, 0] }

/-- A well-behaved oracle (`cs2 = 0`) for the C5 witness. -/
def envC5w : HEnv ℝ :=
  { get_cs2 := fun _ _ => 0, get_pressure := fun _ _ => 0, get_dpde := fun _ _ => 1,
    shear_relax_time_factor := 1, bulk_relax_time_factor := 1 }

/-- The same face state for the C5 witness. -/
def gridC5w : ReconstCell ℝ :=
  { e := 1, rhob := 0, u := ![2, 1, 0, 0] }

end ConcreteInstances

/-! ## Lemmas about the candidate-minimisation fold -/

section FoldLemmas

variable {α : Type} [LinearOrderedField α]

theorem stepAlp_nonneg {m : α} (hm : 0 ≤ m) (a : α) : 0 ≤ stepAlp m a := by
  unfold stepAlp
  split_ifs with h1 h2
  · exact le_of_lt h1.1
  · exact le_refl 0
  · exact hm

theorem stepAlp_le {m : α} (hm : 0 ≤ m) (a : α) : stepAlp m a ≤ m := by
  unfold stepAlp
  split_ifs with h1 h2
  · exact le_of_lt h1.2
  · exact hm
  · exact le_refl m

theorem stepAlp_one {a : α} (h : a = 0 ∨ 1 ≤ a) : stepAlp 1 a = 1 := by
  rcases h with h | h
  · subst h; simp [stepAlp]
  · unfold stepAlp
    rw [if_neg, if_neg]
    · intro hlt; linarith
    · rintro ⟨_, hlt⟩; linarith

theorem foldl_stepAlp_zero (l : List α) : l.foldl stepAlp 0 = 0 := by
  induction l with
  | nil => rfl
  | cons a t ih =>
      have h0 : stepAlp (0 : α) a = 0 := by
        unfold stepAlp
        split_ifs with h1 h2
        · exact absurd h1.2 (not_lt_of_le (le_of_lt h1.1))
        · rfl
        · rfl
      simpa [List.foldl, h0] using ih

theorem foldl_stepAlp_neg {l : List α} {a : α} (ha : a ∈ l) (hneg : a < 0) (m : α) :
    l.foldl stepAlp m = 0 := by
  induction l generalizing m with
  | nil => cases ha
  | cons b t ih =>
      rcases List.mem_cons.mp ha with hb | ht
      · subst hb
        have : stepAlp m a = 0 := by
          unfold stepAlp
          rw [if_neg, if_pos hneg]
          rintro ⟨h1, _⟩; linarith
        simpa [List.foldl, this] using foldl_stepAlp_zero t
      · exact ih ht _

theorem foldl_stepAlp_bounds {m : α} (hm : 0 ≤ m) (l : List α) :
    0 ≤ l.foldl stepAlp m ∧ l.foldl stepAlp m ≤ m := by
  induction l generalizing m with
  | nil => exact ⟨hm, le_refl m⟩
  | cons b t ih =>
      obtain ⟨h0, hle⟩ := ih (stepAlp_nonneg hm b)
      exact ⟨h0, le_trans hle (stepAlp_le hm b)⟩

theorem foldl_stepAlp_le_mem {l : List α} {a m : α} (ha : a ∈ l) (hpos : 0 < a)
    (hm : 0 ≤ m) : l.foldl stepAlp m ≤ a := by
  induction l generalizing m with
  | nil => cases ha
  | cons b t ih =>
      rcases List.mem_cons.mp ha with hb | ht
      · subst hb
        have hstep : stepAlp m a ≤ a := by
          unfold stepAlp
          split_ifs with h1 h2
          · exact le_refl a
          · exact le_of_lt hpos
          · push_neg at h1
            exact h1 hpos
        exact le_trans (foldl_stepAlp_bounds (stepAlp_nonneg hm a) t).2 hstep
      · exact ih ht (stepAlp_nonneg hm b)

theorem foldl_stepAlp_nonneg_eq {l : List α} (h : ∀ a ∈ l, 0 ≤ a) (m : α) :
    l.foldl stepAlp m = (l.filter (fun a => decide (0 < a))).foldl min m := by
  induction l generalizing m with
  | nil => rfl
  | cons b t ih =>
      have hb : 0 ≤ b := h b (List.mem_cons_self b t)
      have ht : ∀ a ∈ t, 0 ≤ a := fun a ha => h a (List.mem_cons_of_mem b ha)
      rcases eq_or_lt_of_le hb with hb0 | hbpos
      · have : stepAlp m b = m := by
          unfold stepAlp
          rw [if_neg, if_neg]
          · rw [← hb0]; exact lt_irrefl 0
          · rintro ⟨h1, _⟩; rw [← hb0] at h1; exact lt_irrefl 0 h1
        simp only [List.foldl, this]
        rw [List.filter_cons_of_neg (by simpa using not_lt_of_le (le_of_eq hb0.symm))]
        exact ih ht m
      · have : stepAlp m b = min m b := by
          unfold stepAlp
          split_ifs with h1 h2
          · exact (min_eq_right (le_of_lt h1.2)).symm
          · exact absurd h2 (not_lt_of_le hb)
          · push_neg at h1
            exact (min_eq_left (h1 hbpos)).symm
        simp only [List.foldl, this]
        rw [List.filter_cons_of_pos (by simpa using hbpos)]
        exact ih ht (min m b)

end FoldLemmas

/-! ## Scaling lemmas for the dissipative state -/

section ScaleLemmas

variable {α : Type} [LinearOrderedField α]

theorem nV1_scaleDiss (E : HEnv α) (c : Cell α) {k : α} (hk : 0 ≤ k) :
    nV1 E (scaleDiss k c) = nV1 E c * k := by
  unfold nV1 scaleDiss nDenom
  simp only [abs_mul, abs_of_nonneg hk]
  ring

theorem nV3_scaleDiss (E : HEnv α) (c : Cell α) (k : α) :
    nV3 E (scaleDiss k c) = nV3 E c * k := by
  unfold nV3 scaleDiss nDenom
  ring

theorem nV5_scaleDiss (E : HEnv α) (c : Cell α) (k : α) :
    nV5 E (scaleDiss k c) = nV5 E c * k := by
  unfold nV5 nViscous1_56 nViscous2_56 scaleDiss nDenom
  ring

theorem nV6_scaleDiss (E : HEnv α) (c : Cell α) (k : α) :
    nV6 E (scaleDiss k c) = nV6 E c * k := by
  unfold nV6 nViscous1_56 nViscous2_56 scaleDiss nDenom
  ring

theorem nTransport56_scaleDiss (E : HEnv α) (c : Cell α) (k : α) :
    nTransport56 E (scaleDiss k c) = nTransport56 E c := rfl

theorem scaleDiss_one (c : Cell α) : scaleDiss 1 c = c := by
  cases c
  simp [scaleDiss]

/-- The skip property of a second-pass candidate: with `k` the factor produced
by a first pass (so `0 ≤ k ≤ 1`, `k` is at most any positive first-pass
candidate, and any negative first-pass candidate forced `k = 0`), the
re-evaluated candidate for a condition of transport part `T` and rescaled
state part `V*k` is either 0 or at least 1, hence never lowers the factor. -/
theorem cand_second_skip (T V k : α) (hk0 : 0 ≤ k) (hk1 : k ≤ 1)
    (hmem : T + V < 0 → 0 < -T / V → k ≤ -T / V)
    (hneg : T + V < 0 → -T / V < 0 → k = 0) :
    (if T + V * k < 0 then -T / (V * k) else 1) = 0
      ∨ 1 ≤ (if T + V * k < 0 then -T / (V * k) else 1) := by
  split_ifs with h
  · by_cases hk : k = 0
    · subst hk
      left
      simp
    · have hkpos : 0 < k := lt_of_le_of_ne hk0 (Ne.symm hk)
      rcases lt_trichotomy T 0 with hT | hT | hT
      · rcases lt_trichotomy V 0 with hV | hV | hV
        · have h1 : T + V < 0 := by linarith
          have h2 : -T / V < 0 := div_neg_of_pos_of_neg (by linarith) hV
          exact absurd (hneg h1 h2) hk
        · left
          simp [hV]
        · right
          have hVk : 0 < V * k := mul_pos hV hkpos
          have hlt : V * k < -T := by linarith
          exact le_of_lt ((one_lt_div hVk).mpr hlt)
      · left
        simp [hT]
      · exfalso
        have hVk : V * k < -T := by linarith
        have hV : V < 0 := by nlinarith
        have h1 : T + V < 0 := by nlinarith
        have h2 : 0 < -T / V := div_pos_iff.mpr (Or.inr ⟨by linarith, hV⟩)
        have h3 : k ≤ -T / V := hmem h1 h2
        have h4 : V * (-T / V) ≤ V * k := mul_le_mul_of_nonpos_left h3 (le_of_lt hV)
        have h5 : V * (-T / V) = -T := by
          rw [mul_comm, div_mul_cancel₀]
          exact ne_of_lt hV
        nlinarith
  · right
    exact le_refl 1

end ScaleLemmas

/-! ## Claim theorems -/

section ClaimC1

variable {α : Type} [LinearOrderedField α]

/-- C1: the per-cell combine step of `FirstRKStepT` implements the sub-step
weighting rule: at sub-step index 0 the stored conserved component equals the
raw update (flux-updated `qi` minus the dissipative divergence times `Δτ` plus
the source times `Δτ`), and at sub-step index 1 it equals (raw update + the
previous step's tau-weighted conserved component) times one half, for each of
the 5 conserved components. -/
theorem FirstRKStepT_combine_substep_rule (P : α → α → α)
    (qi dwmn qi_source : Fin 5 → α) (prev : Cell α) (tau dt : α) (a : Fin 5) :
    FirstRKStepT_combine P 0 qi dwmn qi_source prev tau dt a
      = qi a - dwmn a * dt + qi_source a * dt
  ∧ FirstRKStepT_combine P 1 qi dwmn qi_source prev tau dt a
      = (qi a - dwmn a * dt + qi_source a * dt + get_TJb P prev a 0 * tau) * (1 / 2) := by
  constructor
  · unfold FirstRKStepT_combine
    push_cast
    ring
  · unfold FirstRKStepT_combine
    push_cast
    ring

end ClaimC1

section ClaimC2

variable {α : Type} [LinearOrderedField α]

/-- C2 counterexample: at sub-step weight 1 the dissipative update of
`FirstRKStepW` is **not** the claimed formula
`[(1-w)(cur·u⁰)+w(prev·u⁰)+flux+src·Δτ]/(1+w)/u⁰_future`: with current value 1,
current `u⁰` 1, everything else trivial, the code yields 1/2 while the claimed
formula yields 0 — the code adds an extra `w·(cur·u⁰)` term (line 221). -/
theorem FirstRKStepW_update_ne_specFormula :
    FirstRKStepW_update (α := ℚ) 1 1 0 1 1 1 0 0 1
      ≠ FirstRKStepW_specFormula (α := ℚ) 1 1 0 1 1 1 0 0 1 := by
  norm_num [FirstRKStepW_update, FirstRKStepW_specFormula]

/-- C2 (amended): the future value computed by each enabled dissipative branch
of `FirstRKStepW` equals the spec's formula **plus** the additional term
`w·(current value · current u⁰)/(1+w)`, divided by the future `u⁰` — i.e. at
sub-step weight 1 the current-stage tau-weighted value enters the average once
more (the 2-stage Runge-Kutta accumulation), a term the claim omits. -/
theorem FirstRKStepW_update_eq_specFormula_plus (rk : ℕ)
    (qcur qprev u0c u0p u0f w_rhs src dt : α) :
    FirstRKStepW_update rk qcur qprev u0c u0p u0f w_rhs src dt
      = FirstRKStepW_specFormula rk qcur qprev u0c u0p u0f w_rhs src dt
        + (rk : α) * (qcur * u0c) * (1 / (1 + (rk : α))) / u0f := by
  unfold FirstRKStepW_update FirstRKStepW_specFormula
  ring

end ClaimC2

section ClaimC7

/-- C7 counterexample: with hydro sources and `rhob` evolution on, a NaN
net-baryon source component does **not** stop the process — the stage returns
normally and the stored `qi_source[4]` is NaN (the `isnan` check of lines
131-135 covers only the 4 energy-momentum components). -/
theorem FirstRKStepT_source_rhob_nan_not_fatal :
    sourceFatal (FirstRKStepT_source (α := ℚ) true true 1 (fun _ => EF.fin 0) EF.nan)
        = false
  ∧ (sourceComp (FirstRKStepT_source (α := ℚ) true true 1 (fun _ => EF.fin 0) EF.nan)
        4).isNan = true := by
  decide

/-- C7 (amended): during the ideal update, if any of the **4 energy-momentum**
source components evaluates to NaN the engine stops the process immediately;
the net-baryon (charge) source component is not NaN-checked. -/
theorem FirstRKStepT_source_nan_fatal {α : Type} [LinearOrderedField α]
    (turn_on_rhob : Bool) (tau_rk : α) (j_mu : Fin 4 → EF α) (rhob_source : EF α)
    (h : ∃ i : Fin 4, (EF.mul (EF.fin tau_rk) (j_mu i)).isNan = true) :
    FirstRKStepT_source true turn_on_rhob tau_rk j_mu rhob_source
      = Except.error () := by
  obtain ⟨i, hi⟩ := h
  have hor : ((EF.mul (EF.fin tau_rk) (j_mu 0)).isNan
      || (EF.mul (EF.fin tau_rk) (j_mu 1)).isNan
      || (EF.mul (EF.fin tau_rk) (j_mu 2)).isNan
      || (EF.mul (EF.fin tau_rk) (j_mu 3)).isNan) = true := by
    fin_cases i <;> simp_all
  simp [FirstRKStepT_source, hor]

/-- C7 witness: a concrete NaN energy-momentum source component is fatal. -/
theorem FirstRKStepT_source_nan_fatal_witness :
    (EF.mul (EF.fin (1 : ℚ)) EF.nan).isNan = true
  ∧ FirstRKStepT_source true true (1 : ℚ) (fun _ => EF.nan) (EF.fin 0)
      = Except.error () :=
  ⟨by decide, FirstRKStepT_source_nan_fatal true 1 (fun _ => EF.nan) (EF.fin 0)
      ⟨0, by decide⟩⟩

end ClaimC7

section ClaimC8

/-- C8: `QuestRevert`, `nCausalityConstraints` and `sCausalityConstraints`
never modify the primitive variables — energy density, charge density and the
four-velocity — of the cell they act on; they write only to the dissipative
quantities. -/
theorem regulators_preserve_primitives {α : Type} [LinearOrderedField α] :
    (∀ (P : ℝ → ℝ → ℝ) (strength : ℝ) (c : Cell ℝ),
        (QuestRevert P strength c).epsilon = c.epsilon
      ∧ (QuestRevert P strength c).rhob = c.rhob
      ∧ (QuestRevert P strength c).u = c.u)
  ∧ (∀ (E : HEnv α) (c : Cell α) (tau : α),
        (nCausalityConstraints E c tau).1.epsilon = c.epsilon
      ∧ (nCausalityConstraints E c tau).1.rhob = c.rhob
      ∧ (nCausalityConstraints E c tau).1.u = c.u)
  ∧ (∀ (E : HEnv α) (c : Cell α) (tau : α),
        (sCausalityConstraints E c tau).1.epsilon = c.epsilon
      ∧ (sCausalityConstraints E c tau).1.rhob = c.rhob
      ∧ (sCausalityConstraints E c tau).1.u = c.u) :=
  ⟨fun _ _ _ => ⟨rfl, rfl, rfl⟩,
   fun _ _ _ => ⟨rfl, rfl, rfl⟩,
   fun _ _ _ => ⟨rfl, rfl, rfl⟩⟩

end ClaimC8

section ClaimC3

variable {α : Type} [LinearOrderedField α]

/-- C3: whenever `nCausalityConstraints` runs on a cell, (i) each of the 4
necessary-condition values that is negative yields a candidate damping factor
solving that condition at equality (in its linear-in-factor form, whenever a
solution exists, i.e. the state-dependent part is nonzero); (ii) the applied
factor is the minimum positive candidate clamped to `[0,1]` (the fold starts
at 1), with any negative candidate forcing the factor to 0; (iii) the bulk
pressure, all 14 `Wmunu` components and the 3 cached eigenvalues are uniformly
multiplied by this factor; and (iv) exactly when the energy density exceeds
0.01, one record (factor, energy density, proper time) is appended to the
reduction-factor log. -/
theorem nCausalityConstraints_spec (E : HEnv α) (c : Cell α) (tau : α) :
    ((nCond1 E c < 0 → nV1 E c ≠ 0 →
        nTransport13 E + nV1 E c * nCand1 E c = 0)
      ∧ (nCond3 E c < 0 → nV3 E c ≠ 0 →
        nTransport13 E + nV3 E c * nCand3 E c = 0)
      ∧ (nCond5 E c < 0 → nV5 E c ≠ 0 →
        nTransport56 E c + nV5 E c * nCand5 E c = 0)
      ∧ (nCond6 E c < 0 → nV6 E c ≠ 0 →
        (1 - nTransport56 E c) + nV6 E c * nCand6 E c = 0))
  ∧ ((∃ a ∈ nCands E c, a < 0) → nMinAlp E c = 0)
  ∧ ((∀ a ∈ nCands E c, 0 ≤ a) →
        nMinAlp E c = ((nCands E c).filter (fun a => decide (0 < a))).foldl min 1)
  ∧ (nCausalityConstraints E c tau).1.pi_b = c.pi_b * nMinAlp E c
  ∧ (∀ j : Fin 14, (nCausalityConstraints E c tau).1.Wmunu j = c.Wmunu j * nMinAlp E c)
  ∧ (∀ j : Fin 3, (nCausalityConstraints E c tau).1.Lambdas j = c.Lambdas j * nMinAlp E c)
  ∧ (1 / 100 < c.epsilon →
        (nCausalityConstraints E c tau).2 = [(nMinAlp E c, c.epsilon, tau)])
  ∧ (¬ 1 / 100 < c.epsilon → (nCausalityConstraints E c tau).2 = []) := by
  refine ⟨⟨?_, ?_, ?_, ?_⟩, ?_, ?_, rfl, fun _ => rfl, fun _ => rfl, ?_, ?_⟩
  · intro h hV
    have hc : nV1 E c * (-nTransport13 E / nV1 E c) = -nTransport13 E := by
      rw [mul_comm, div_mul_cancel₀ _ hV]
    rw [nCand1, if_pos h, hc]
    ring
  · intro h hV
    have hc : nV3 E c * (-nTransport13 E / nV3 E c) = -nTransport13 E := by
      rw [mul_comm, div_mul_cancel₀ _ hV]
    rw [nCand3, if_pos h, hc]
    ring
  · intro h hV
    have hc : nV5 E c * (-nTransport56 E c / nV5 E c) = -nTransport56 E c := by
      rw [mul_comm, div_mul_cancel₀ _ hV]
    rw [nCand5, if_pos h, hc]
    ring
  · intro h hV
    have hc : nV6 E c * (-(1 - nTransport56 E c) / nV6 E c)
        = -(1 - nTransport56 E c) := by
      rw [mul_comm, div_mul_cancel₀ _ hV]
    rw [nCand6, if_pos h, hc]
    ring
  · rintro ⟨a, ha, hneg⟩
    exact foldl_stepAlp_neg ha hneg 1
  · intro h
    exact foldl_stepAlp_nonneg_eq h 1
  · intro h
    show (if 1 / 100 < c.epsilon then [(nMinAlp E c, c.epsilon, tau)] else []) = _
    rw [if_pos h]
  · intro h
    show (if 1 / 100 < c.epsilon then [(nMinAlp E c, c.epsilon, tau)] else []) = _
    rw [if_neg h]

/-- C3 witness: on a concrete cell with `n1` violated, the candidate solves
`n1` at equality, and because the energy density 1 exceeds 0.01 exactly one
record is logged. -/
theorem nCausalityConstraints_spec_witness :
    nCond1 envC3 cellC3 < 0
  ∧ nV1 envC3 cellC3 ≠ 0
  ∧ nTransport13 envC3 + nV1 envC3 cellC3 * nCand1 envC3 cellC3 = 0
  ∧ (nCausalityConstraints envC3 cellC3 5).2
      = [(nMinAlp envC3 cellC3, cellC3.epsilon, 5)] := by
  obtain ⟨⟨h1, -, -, -⟩, -, -, -, -, -, hlog, -⟩ :=
    nCausalityConstraints_spec envC3 cellC3 5
  have hc : nCond1 envC3 cellC3 < 0 := by
    norm_num [nCond1, nTransport13, nV1, nViscous1_13, nViscous2_13, nDenom,
      envC3, cellC3, get_lambda_piPi_coeff, get_tau_pipi_coeff]
  have hv : nV1 envC3 cellC3 ≠ 0 := by
    norm_num [nV1, nViscous1_13, nViscous2_13, nDenom, envC3, cellC3,
      get_lambda_piPi_coeff, get_tau_pipi_coeff]
  exact ⟨hc, hv, h1 hc hv, hlog (by norm_num [cellC3])⟩

end ClaimC3

section ClaimC9

variable {α : Type} [LinearOrderedField α]

/-- C9 counterexample: it is **not** true that after the first application of
`nCausalityConstraints` all 4 condition values are nonnegative: on this cell
(`n1`, `n3`, `n5` violated, `n6` satisfied) the damping factor is 65/1398 and
the condition `n6`, re-evaluated at the damped state, is negative. -/
theorem nCausality_n6_negative_after_first_application :
    nCond6 envC9 ((nCausalityConstraints envC9 cellC9 5).1) < 0 := by
  norm_num [nCausalityConstraints, scaleDiss, nCond6, nV6, nTransport56, nViscous1_56,
    nViscous2_56, nDenom, nMinAlp, nCands, nCand1, nCand3, nCand5, nCand6, nCond1,
    nCond3, nCond5, nTransport13, nV1, nV3, nV5, nViscous1_13, nViscous2_13,
    envC9, cellC9, get_tau_pipi_coeff, get_delta_pipi_coeff, get_lambda_piPi_coeff,
    get_lambda_Pipi_coeff, get_delta_PiPi_coeff, stepAlp, List.foldl]

/-- C9 (amended): applying `nCausalityConstraints` twice in succession with no
intervening state change does not reduce the dissipative state further: the
second application computes damping factor 1 and leaves the bulk pressure, all
`Wmunu` components and the cached eigenvalues unchanged.  (The claim's stated
reason — that all 4 condition values are nonnegative after the first
application — does not hold in general: `n6` can remain negative; its
re-evaluated candidate is then 0 or at least 1 and is skipped by the
minimisation loop.) -/
theorem nCausality_second_application_identity (E : HEnv α) (c : Cell α)
    (tau tau' : α) :
    nMinAlp E ((nCausalityConstraints E c tau).1) = 1
  ∧ (nCausalityConstraints E ((nCausalityConstraints E c tau).1) tau').1
      = (nCausalityConstraints E c tau).1 := by
  set k := nMinAlp E c with hk
  have hk0 : 0 ≤ k := (foldl_stepAlp_bounds zero_le_one (nCands E c)).1
  have hk1 : k ≤ 1 := (foldl_stepAlp_bounds zero_le_one (nCands E c)).2
  have hcell : (nCausalityConstraints E c tau).1 = scaleDiss k c := rfl
  have H1 : nCand1 E (scaleDiss k c) = 0 ∨ 1 ≤ nCand1 E (scaleDiss k c) := by
    have e1 : nCand1 E (scaleDiss k c)
        = if nTransport13 E + nV1 E c * k < 0
          then -nTransport13 E / (nV1 E c * k) else 1 := by
      unfold nCand1 nCond1
      rw [nV1_scaleDiss E c hk0]
    rw [e1]
    refine cand_second_skip _ _ _ hk0 hk1 (fun hTV hpos => ?_) (fun hTV hneg => ?_)
    · have hc : nCand1 E c = -nTransport13 E / nV1 E c := by
        rw [nCand1, if_pos (show nCond1 E c < 0 from hTV)]
      have hmem : nCand1 E c ∈ nCands E c := by simp [nCands]
      have := foldl_stepAlp_le_mem hmem (by rw [hc]; exact hpos) zero_le_one
      rw [hc] at this
      exact this
    · have hc : nCand1 E c = -nTransport13 E / nV1 E c := by
        rw [nCand1, if_pos (show nCond1 E c < 0 from hTV)]
      have hmem : nCand1 E c ∈ nCands E c := by simp [nCands]
      exact foldl_stepAlp_neg hmem (by rw [hc]; exact hneg) 1
  have H3 : nCand3 E (scaleDiss k c) = 0 ∨ 1 ≤ nCand3 E (scaleDiss k c) := by
    have e1 : nCand3 E (scaleDiss k c)
        = if nTransport13 E + nV3 E c * k < 0
          then -nTransport13 E / (nV3 E c * k) else 1 := by
      unfold nCand3 nCond3
      rw [nV3_scaleDiss E c k]
    rw [e1]
    refine cand_second_skip _ _ _ hk0 hk1 (fun hTV hpos => ?_) (fun hTV hneg => ?_)
    · have hc : nCand3 E c = -nTransport13 E / nV3 E c := by
        rw [nCand3, if_pos (show nCond3 E c < 0 from hTV)]
      have hmem : nCand3 E c ∈ nCands E c := by simp [nCands]
      have := foldl_stepAlp_le_mem hmem (by rw [hc]; exact hpos) zero_le_one
      rw [hc] at this
      exact this
    · have hc : nCand3 E c = -nTransport13 E / nV3 E c := by
        rw [nCand3, if_pos (show nCond3 E c < 0 from hTV)]
      have hmem : nCand3 E c ∈ nCands E c := by simp [nCands]
      exact foldl_stepAlp_neg hmem (by rw [hc]; exact hneg) 1
  have H5 : nCand5 E (scaleDiss k c) = 0 ∨ 1 ≤ nCand5 E (scaleDiss k c) := by
    have e1 : nCand5 E (scaleDiss k c)
        = if nTransport56 E c + nV5 E c * k < 0
          then -nTransport56 E c / (nV5 E c * k) else 1 := by
      unfold nCand5 nCond5
      rw [nV5_scaleDiss E c k, nTransport56_scaleDiss E c k]
    rw [e1]
    refine cand_second_skip _ _ _ hk0 hk1 (fun hTV hpos => ?_) (fun hTV hneg => ?_)
    · have hc : nCand5 E c = -nTransport56 E c / nV5 E c := by
        rw [nCand5, if_pos (show nCond5 E c < 0 from hTV)]
      have hmem : nCand5 E c ∈ nCands E c := by simp [nCands]
      have := foldl_stepAlp_le_mem hmem (by rw [hc]; exact hpos) zero_le_one
      rw [hc] at this
      exact this
    · have hc : nCand5 E c = -nTransport56 E c / nV5 E c := by
        rw [nCand5, if_pos (show nCond5 E c < 0 from hTV)]
      have hmem : nCand5 E c ∈ nCands E c := by simp [nCands]
      exact foldl_stepAlp_neg hmem (by rw [hc]; exact hneg) 1
  have H6 : nCand6 E (scaleDiss k c) = 0 ∨ 1 ≤ nCand6 E (scaleDiss k c) := by
    have e1 : nCand6 E (scaleDiss k c)
        = if (1 - nTransport56 E c) + nV6 E c * k < 0
          then -(1 - nTransport56 E c) / (nV6 E c * k) else 1 := by
      unfold nCand6 nCond6
      rw [nV6_scaleDiss E c k, nTransport56_scaleDiss E c k]
    rw [e1]
    refine cand_second_skip _ _ _ hk0 hk1 (fun hTV hpos => ?_) (fun hTV hneg => ?_)
    · have hc : nCand6 E c = -(1 - nTransport56 E c) / nV6 E c := by
        rw [nCand6, if_pos (show nCond6 E c < 0 from hTV)]
      have hmem : nCand6 E c ∈ nCands E c := by simp [nCands]
      have := foldl_stepAlp_le_mem hmem (by rw [hc]; exact hpos) zero_le_one
      rw [hc] at this
      exact this
    · have hc : nCand6 E c = -(1 - nTransport56 E c) / nV6 E c := by
        rw [nCand6, if_pos (show nCond6 E c < 0 from hTV)]
      have hmem : nCand6 E c ∈ nCands E c := by simp [nCands]
      exact foldl_stepAlp_neg hmem (by rw [hc]; exact hneg) 1
  have hone : nMinAlp E (scaleDiss k c) = 1 := by
    show List.foldl stepAlp 1 [nCand1 E (scaleDiss k c), nCand3 E (scaleDiss k c),
      nCand5 E (scaleDiss k c), nCand6 E (scaleDiss k c)] = 1
    simp only [List.foldl]
    rw [stepAlp_one H1, stepAlp_one H3, stepAlp_one H5, stepAlp_one H6]
  constructor
  · rw [hcell]
    exact hone
  · show scaleDiss (nMinAlp E (scaleDiss k c)) (scaleDiss k c) = scaleDiss k c
    rw [hone, scaleDiss_one]

end ClaimC9

section ClaimC6

variable {α : Type} [LinearOrderedField α]

theorem BinarySearch_succ (fuel : ℕ) (f : α → α) (l r res : α) :
    BinarySearch (fuel + 1) f l r res
      = if r - l > 1 / 10000 then
          if r < l then (false, res)
          else if f r * f l > 0 then (false, res)
          else
            if f ((l + r) / 2) < 0 then BinarySearch fuel f l ((l + r) / 2) ((l + r) / 2)
            else BinarySearch fuel f ((l + r) / 2) r ((l + r) / 2)
        else (true, res) := rfl

/-- C6: in `sCausalityConstraints`, when a sufficiency function evaluates
negative at the current damping factor and the bisection on `[0, factor]`
fails, the damping factor is set to 0 only for the first sufficiency function
(`Suff5`) and only when the sound speed squared is below 0.15; in every other
failure case (first function with `cs2 ≥ 0.15`, and the second and third
functions) a diagnostic message is emitted and the damping factor is left
unmodified.  The final state is the input state rescaled by the resulting
factor, and the emitted diagnostics are exactly those of the three blocks. -/
theorem sCausalityConstraints_bisection_failure (E : HEnv α) (c : Cell α) (tau : α) :
    (Suff5 E c (sBeta0 E c) < 0 →
      (BinarySearch 64 (Suff5 E c) 0 (sBeta0 E c) 0).1 = false →
        ((E.get_cs2 c.epsilon c.rhob < 3 / 20 → sBeta5 E c = (0, []))
          ∧ (¬ E.get_cs2 c.epsilon c.rhob < 3 / 20 →
              sBeta5 E c = (sBeta0 E c, [SuffMsg.suff5]))))
  ∧ (Suff7 E c (sBeta5 E c).1 < 0 →
      (BinarySearch 64 (Suff7 E c) 0 (sBeta5 E c).1 0).1 = false →
        sBeta7 E c = ((sBeta5 E c).1, [SuffMsg.suff7]))
  ∧ (Suff8 E c (sBeta7 E c).1 < 0 →
      (BinarySearch 64 (Suff8 E c) 0 (sBeta7 E c).1 0).1 = false →
        sBeta8 E c = ((sBeta7 E c).1, [SuffMsg.suff8]))
  ∧ (sCausalityConstraints E c tau).1 = scaleDiss (sBeta8 E c).1 c
  ∧ (sCausalityConstraints E c tau).2.2
      = (sBeta5 E c).2 ++ (sBeta7 E c).2 ++ (sBeta8 E c).2 := by
  refine ⟨fun h5 hbs => ⟨fun hcs => ?_, fun hcs => ?_⟩,
    fun h7 hbs => ?_, fun h8 hbs => ?_, rfl, rfl⟩
  · simp only [sBeta5, if_pos h5, hbs]
    rw [if_neg (by simp), if_pos hcs]
  · simp only [sBeta5, if_pos h5, hbs]
    rw [if_neg (by simp), if_neg hcs]
  · simp only [sBeta7, if_pos h7, hbs]
    rw [if_neg (by simp)]
  · simp only [sBeta8, if_pos h8, hbs]
    rw [if_neg (by simp)]

/-- C6 witness: a concrete cell where `Suff5` is negative on the whole bracket
(so the bisection fails for lack of a sign change) and `cs2 = 0 < 0.15`, so
the factor falls back to 0 with no diagnostic. -/
theorem sCausalityConstraints_bisection_failure_witness :
    Suff5 envC6 cellC6 (sBeta0 envC6 cellC6) < 0
  ∧ (BinarySearch 64 (Suff5 envC6 cellC6) 0 (sBeta0 envC6 cellC6) 0).1 = false
  ∧ envC6.get_cs2 cellC6.epsilon cellC6.rhob < 3 / 20
  ∧ sBeta5 envC6 cellC6 = (0, []) := by
  have hb0 : sBeta0 envC6 cellC6 = 1 := by
    norm_num [sBeta0, sCand1, sCand2, sCand6, sCond1, sCond2, sCond6, sRelax, bRelax,
      sL1, sL3, sPi, nDenom, envC6, cellC6, get_lambda_piPi_coeff, get_tau_pipi_coeff,
      get_delta_PiPi_coeff, get_delta_pipi_coeff, get_lambda_Pipi_coeff, stepAlp,
      List.foldl]
  have hf1 : Suff5 envC6 cellC6 1 = -(2 / 3) := by
    norm_num [Suff5, sRelax, bRelax, sL1, sL3, sPi, nDenom, envC6, cellC6,
      get_lambda_piPi_coeff, get_tau_pipi_coeff, get_delta_PiPi_coeff,
      get_delta_pipi_coeff, get_lambda_Pipi_coeff]
  have hf0 : Suff5 envC6 cellC6 0 = -(2 / 3) := by
    norm_num [Suff5, sRelax, bRelax, sL1, sL3, sPi, nDenom, envC6, cellC6,
      get_lambda_piPi_coeff, get_tau_pipi_coeff, get_delta_PiPi_coeff,
      get_delta_pipi_coeff, get_lambda_Pipi_coeff]
  have h5 : Suff5 envC6 cellC6 (sBeta0 envC6 cellC6) < 0 := by
    rw [hb0, hf1]
    norm_num
  have hbs : (BinarySearch 64 (Suff5 envC6 cellC6) 0 (sBeta0 envC6 cellC6) 0).1
      = false := by
    rw [hb0, show (64 : ℕ) = 63 + 1 from rfl, BinarySearch_succ]
    norm_num [hf1, hf0]
  have hcs : envC6.get_cs2 cellC6.epsilon cellC6.rhob < 3 / 20 := by
    norm_num [envC6]
  exact ⟨h5, hbs, hcs,
    ((sCausalityConstraints_bisection_failure envC6 cellC6 0).1 h5 hbs).1 hcs⟩

end ClaimC6

section ClaimC4

/-- C4: in `QuestRevert`, for every cell: if the gated shear-magnitude ratio
is NaN, all 10 shear components are set to exactly zero; if the ratio is a
number exceeding the fixed ceiling 0.1, all 10 shear components are uniformly
multiplied by `0.1/ratio`; and if the bulk ratio is a number exceeding 0.1,
the bulk scalar is multiplied by `0.1/its ratio`. -/
theorem QuestRevert_ratio_behaviour (P : ℝ → ℝ → ℝ) (strength : ℝ) (c : Cell ℝ) :
    (rhoShear P strength c = EF.nan →
      ∀ mu : Fin 14, mu.val < 10 → (QuestRevert P strength c).Wmunu mu = 0)
  ∧ (∀ r : ℝ, rhoShear P strength c = EF.fin r → 1 / 10 < r →
      ∀ mu : Fin 14, mu.val < 10 →
        (QuestRevert P strength c).Wmunu mu = 1 / 10 / r * c.Wmunu mu)
  ∧ (∀ r : ℝ, rhoBulk P strength c = EF.fin r → 1 / 10 < r →
      (QuestRevert P strength c).pi_b = 1 / 10 / r * c.pi_b) := by
  refine ⟨fun h mu hmu => ?_, fun r h hr mu hmu => ?_, fun r h hr => ?_⟩
  · simp only [QuestRevert, h, EF.isNan, if_pos, if_true]
    rw [if_pos hmu]
  · have hr0 : r ≠ 0 := by
      intro h0
      rw [h0] at hr
      norm_num at hr
    simp only [QuestRevert, h, EF.isNan, Bool.false_eq_true, if_false, EF.ltB,
      decide_eq_true_eq, if_pos hr, EF.div, if_neg hr0, EF.toReal]
    rw [if_pos hmu]
  · have hr0 : r ≠ 0 := by
      intro h0
      rw [h0] at hr
      norm_num at hr
    simp only [QuestRevert, h, EF.ltB, decide_eq_true_eq, if_pos hr, EF.div,
      if_neg hr0, EF.toReal]

/-- C4 witness: a cell whose only nonzero shear component is `pi^{01}` has
`pisize = -2 < 0`, the shear ratio is NaN, and the stored shear components
come out exactly zero. -/
theorem QuestRevert_ratio_behaviour_witness :
    rhoShear (fun _ _ => 0) 1 cellC4 = EF.nan
  ∧ (QuestRevert (fun _ _ => 0) 1 cellC4).Wmunu 1 = 0
  ∧ (QuestRevert (fun _ _ => 0) 1 cellC4).Wmunu 9 = 0 := by
  have hps : pisize cellC4 = -2 := by
    have w0 : cellC4.Wmunu 0 = 0 := rfl
    have w1 : cellC4.Wmunu 1 = 1 := rfl
    have w2 : cellC4.Wmunu 2 = 0 := rfl
    have w3 : cellC4.Wmunu 3 = 0 := rfl
    have w4 : cellC4.Wmunu 4 = 0 := rfl
    have w5 : cellC4.Wmunu 5 = 0 := rfl
    have w6 : cellC4.Wmunu 6 = 0 := rfl
    have w7 : cellC4.Wmunu 7 = 0 := rfl
    have w8 : cellC4.Wmunu 8 = 0 := rfl
    have w9 : cellC4.Wmunu 9 = 0 := rfl
    simp only [pisize, w0, w1, w2, w3, w4, w5, w6, w7, w8, w9]
    norm_num
  have heq : eqSize (fun _ _ => 0) cellC4 = 1 := by
    norm_num [eqSize, cellC4]
  have h : rhoShear (fun _ _ => 0) 1 cellC4 = EF.nan := by
    rw [rhoShear, hps, heq]
    rw [show EF.div (EF.fin (-2 : ℝ)) (EF.fin 1) = EF.fin (-2) by
      simp [EF.div]]
    rw [show EF.sqrtR (EF.fin (-2 : ℝ)) = EF.nan by
      simp [EF.sqrtR]]
    rfl
  refine ⟨h, ?_, ?_⟩
  · exact (QuestRevert_ratio_behaviour (fun _ _ => 0) 1 cellC4).1 h 1 (by decide)
  · exact (QuestRevert_ratio_behaviour (fun _ _ => 0) 1 cellC4).1 h 9 (by decide)

end ClaimC4

section ClaimC10

/-- C10: NaN handling in `QuestRevert` is asymmetric between shear and bulk:
a NaN shear ratio zeroes all 10 shear components, but a NaN bulk ratio fails
the `rho_bulk > 0.1` comparison (IEEE comparisons with NaN are false), no
branch is taken, and the bulk pressure is left unchanged. -/
theorem QuestRevert_nan_asymmetry (P : ℝ → ℝ → ℝ) (strength : ℝ) (c : Cell ℝ) :
    (rhoShear P strength c = EF.nan →
      ∀ mu : Fin 14, mu.val < 10 → (QuestRevert P strength c).Wmunu mu = 0)
  ∧ (rhoBulk P strength c = EF.nan → (QuestRevert P strength c).pi_b = c.pi_b) := by
  refine ⟨fun h mu hmu => ?_, fun h => ?_⟩
  · simp only [QuestRevert, h, EF.isNan, if_pos, if_true]
    rw [if_pos hmu]
  · simp only [QuestRevert, h, EF.ltB, Bool.false_eq_true, if_false]

/-- C10 witness: a cell with zero energy, pressure and bulk pressure has
`bulksize/eq_size = 0/0`, the bulk ratio is NaN, and the bulk pressure is
left unchanged. -/
theorem QuestRevert_nan_asymmetry_witness :
    rhoBulk (fun _ _ => 0) 1 cellC10 = EF.nan
  ∧ (QuestRevert (fun _ _ => 0) 1 cellC10).pi_b = cellC10.pi_b := by
  have heq : eqSize (fun _ _ => 0) cellC10 = 0 := by
    norm_num [eqSize, cellC10]
  have h : rhoBulk (fun _ _ => 0) 1 cellC10 = EF.nan := by
    rw [rhoBulk, heq]
    rw [show (3 : ℝ) * cellC10.pi_b * cellC10.pi_b = 0 by norm_num [cellC10]]
    rw [show EF.div (EF.fin (0 : ℝ)) (EF.fin 0) = EF.nan by simp [EF.div]]
    rfl
  exact ⟨h, (QuestRevert_nan_asymmetry (fun _ _ => 0) 1 cellC10).2 h⟩

end ClaimC10

section ClaimC5

/-- C5 counterexample: when the computed numerator is zero, `MaxSpeed` returns
a speed strictly below the local 3-velocity component without snapping or
terminating — here the pre-geometric-factor speed is 0 while `ux/utau = 1/2`,
a deficit far beyond the `1e-4` tolerance, and the outcome is a normal return
(the `if (num != 0.0)` guard of line 917 skips both the snap and the abort). -/
theorem MaxSpeedPre_num_zero_below_velocity :
    MaxSpeedPre envC5 (1 / 1000000) gridC5 1 = Except.ok 0
  ∧ 1 / 10000 < |gridC5.u 1| / gridC5.u 0 := by
  have hu0 : gridC5.u 0 = 2 := rfl
  have hu1 : gridC5.u 1 = 1 := rfl
  have hnts : msNumTempSqrt envC5 gridC5 1 = -5 := by
    norm_num [msNumTempSqrt, msUt2mux2, envC5, hu0, hu1]
  have hdp : envC5.get_dpde gridC5.e gridC5.rhob < 1 / 1000 := by
    norm_num [envC5]
  have hnum : msNum envC5 gridC5 1 = 0 := by
    rw [msNum, if_neg (by rw [hnts]; norm_num)]
    norm_num [envC5, gridC5, hu0, hu1, Real.sqrt_zero]
  have hval : msNum envC5 gridC5 1 / max (msDen envC5 gridC5) (1 / 1000000) = 0 := by
    rw [hnum]
    norm_num
  constructor
  · rw [MaxSpeedPre, if_pos (Or.inr hdp), hval, hnum, msValidate]
    rw [if_neg (by norm_num), if_pos (by rw [hu0, hu1]; norm_num)]
    rw [if_neg (by norm_num)]
  · rw [hu0, hu1]
    norm_num

/-- C5 (amended): for every face state with `u⁰ > 0` and `|u^direc| ≤ u⁰`,
(i) whenever `MaxSpeed` (before the per-direction geometric factor) returns
normally, the returned speed is at most 1 and is at least `ux/utau` **unless
the computed numerator is zero**, in which case the speed (possibly below
`ux/utau`) is returned unmodified without snap or termination; (ii) with a
nonzero numerator, a nonnegative speed below `ux/utau` is snapped to exactly
`ux/utau` when the deficit is within `1e-4` and terminates the process
otherwise; (iii) a speed exceeding 1 terminates the process (the clamp to 1
on that path is immediately followed by the abort). -/
theorem MaxSpeedPre_bounds (E : HEnv ℝ) (se : ℝ) (g : ReconstCell ℝ) (direc : Fin 4)
    (hu : 0 < g.u 0) (hphys : |g.u direc| ≤ g.u 0) :
    (∀ f : ℝ, MaxSpeedPre E se g direc = Except.ok f →
        f ≤ 1 ∧ (msNum E g direc = 0 ∨ |g.u direc| / g.u 0 ≤ f))
  ∧ ((0 ≤ msNumTempSqrt E g direc ∨ E.get_dpde g.e g.rhob < 1 / 1000) →
      msNum E g direc ≠ 0 →
      0 ≤ msNum E g direc / max (msDen E g) se →
      msNum E g direc / max (msDen E g) se < |g.u direc| / g.u 0 →
        ((|msNum E g direc / max (msDen E g) se - |g.u direc| / g.u 0| < 1 / 10000 →
            MaxSpeedPre E se g direc = Except.ok (|g.u direc| / g.u 0))
          ∧ (¬ |msNum E g direc / max (msDen E g) se - |g.u direc| / g.u 0| < 1 / 10000 →
            MaxSpeedPre E se g direc = Except.error ())))
  ∧ ((0 ≤ msNumTempSqrt E g direc ∨ E.get_dpde g.e g.rhob < 1 / 1000) →
      ¬ msNum E g direc / max (msDen E g) se < |g.u direc| / g.u 0 →
      1 < msNum E g direc / max (msDen E g) se →
        MaxSpeedPre E se g direc = Except.error ()) := by
  have hratio : |g.u direc| / g.u 0 ≤ 1 := by
    rw [div_le_one hu]
    exact hphys
  refine ⟨fun f hf => ?_, fun hbr hnum hf0 hlt => ⟨fun htol => ?_, fun htol => ?_⟩,
    fun hbr hge hgt => ?_⟩
  · by_cases hbr : 0 ≤ msNumTempSqrt E g direc ∨ E.get_dpde g.e g.rhob < 1 / 1000
    · rw [MaxSpeedPre, if_pos hbr, msValidate] at hf
      by_cases h1 : msNum E g direc / max (msDen E g) se < 0
      · rw [if_pos h1] at hf
        exact absurd hf (by simp)
      · rw [if_neg h1] at hf
        by_cases h2 : msNum E g direc / max (msDen E g) se < |g.u direc| / g.u 0
        · rw [if_pos h2] at hf
          by_cases h3 : msNum E g direc ≠ 0
          · rw [if_pos h3] at hf
            by_cases h4 : |msNum E g direc / max (msDen E g) se
                - |g.u direc| / g.u 0| < 1 / 10000
            · rw [if_pos h4, Except.ok.injEq] at hf
              subst hf
              exact ⟨hratio, Or.inr (le_refl _)⟩
            · rw [if_neg h4] at hf
              exact absurd hf (by simp)
          · rw [if_neg h3, Except.ok.injEq] at hf
            subst hf
            push_neg at h3
            exact ⟨le_trans (le_of_lt h2) hratio, Or.inl h3⟩
        · rw [if_neg h2] at hf
          by_cases h5 : 1 < msNum E g direc / max (msDen E g) se
          · rw [if_pos h5] at hf
            exact absurd hf (by simp)
          · rw [if_neg h5, Except.ok.injEq] at hf
            subst hf
            push_neg at h5 h2
            exact ⟨h5, Or.inr h2⟩
    · rw [MaxSpeedPre, if_neg hbr] at hf
      exact absurd hf (by simp)
  · rw [MaxSpeedPre, if_pos hbr, msValidate]
    rw [if_neg (not_lt_of_le hf0), if_pos hlt, if_pos hnum, if_pos htol]
  · rw [MaxSpeedPre, if_pos hbr, msValidate]
    rw [if_neg (not_lt_of_le hf0), if_pos hlt, if_pos hnum, if_neg htol]
  · rw [MaxSpeedPre, if_pos hbr, msValidate]
    rw [if_neg (by linarith), if_neg hge, if_pos hgt]

/-- C5 witness: a well-behaved face state (`cs2 = 0`, `utau = 2`, `ux = 1`)
returns `1/2 = ux/utau` normally, and the amended bounds hold there. -/
theorem MaxSpeedPre_bounds_witness :
    0 < gridC5w.u 0
  ∧ |gridC5w.u 1| ≤ gridC5w.u 0
  ∧ MaxSpeedPre envC5w (1 / 1000000) gridC5w 1 = Except.ok (1 / 2)
  ∧ (1 / 2 : ℝ) ≤ 1
  ∧ (msNum envC5w gridC5w 1 = 0 ∨ |gridC5w.u 1| / gridC5w.u 0 ≤ 1 / 2) := by
  have hu0 : gridC5w.u 0 = 2 := rfl
  have hu1 : gridC5w.u 1 = 1 := rfl
  have hu : 0 < gridC5w.u 0 := by rw [hu0]; norm_num
  have hphys : |gridC5w.u 1| ≤ gridC5w.u 0 := by rw [hu0, hu1]; norm_num
  have hnts : msNumTempSqrt envC5w gridC5w 1 = 0 := by
    norm_num [msNumTempSqrt, msUt2mux2, envC5w, hu0, hu1]
  have hnum : msNum envC5w gridC5w 1 = 2 := by
    rw [msNum, if_pos (by rw [hnts])]
    rw [hnts]
    norm_num [envC5w, hu0, hu1, Real.sqrt_zero]
  have hden : msDen envC5w gridC5w = 4 := by
    norm_num [msDen, envC5w, hu0]
  have hf0 : msNum envC5w gridC5w 1 / max (msDen envC5w gridC5w) (1 / 1000000)
      = 1 / 2 := by
    rw [hnum, hden]
    norm_num
  have hok : MaxSpeedPre envC5w (1 / 1000000) gridC5w 1 = Except.ok (1 / 2) := by
    rw [MaxSpeedPre, if_pos (Or.inl (by rw [hnts]))]
    rw [hf0, hnum, msValidate]
    rw [if_neg (by norm_num), if_neg (by rw [hu0, hu1]; norm_num),
      if_neg (by norm_num)]
  have hb := (MaxSpeedPre_bounds envC5w (1 / 1000000) gridC5w 1 hu hphys).1
      (1 / 2) hok
  exact ⟨hu, hphys, hok, hb.1, hb.2⟩

end ClaimC5

end Music
